import Mathlib

/-!
Verification of the LanVision live scan session/streaming subsystem.

Shallow embedding of the backend sources:
  - backend/src/services/scanSessionManager.ts  (Session Store + Event Broadcaster)
  - backend/src/utils/nmapArgsBuilder.ts        (Argument Builder)
  - backend/src/services/nmapService.ts         (Process Runner)
  - backend/src/services/parser/nmapXmlParser.ts (Result Parser boundary)
  - backend/src/controllers/ScanController.ts   (Result Finalizer + Streaming Endpoint)

Modelling conventions:
  - JavaScript Date timestamps are Int milliseconds.
  - The Node event loop is single threaded; each Session Store mutation and the
    event emissions it performs are atomic.  Emitted events are collected in a
    global ordered list (the EventEmitter delivers synchronously, so the list
    order is the delivery order seen by every subscriber).
  - Event payload timestamps (the `timestamp: new Date()` fields) are omitted:
    no claim mentions them.
  - The sessions map (a JS Map) is embedded as a function from id to
    Option ScanSession.
-/

namespace LanVision

/-- Session status, from scanSessionManager.ts: ScanStatus. -/
inductive ScanStatus
  | starting
  | running
  | done
  | error
deriving DecidableEq

/-- Scan statistics block of a parsed result, from nmapXmlParser.ts
(ParsedNmapResult.stats).  durationSeconds is a JS float in the source; no
claim inspects it arithmetically, so it is carried as a Nat. -/
structure ScanStats where
  totalHosts : Nat
  hostsUp : Nat
  hostsDown : Nat
  totalOpenPorts : Nat
  durationSeconds : Nat
deriving DecidableEq

/-- Parsed scan outcome, from nmapXmlParser.ts: ParsedNmapResult.  The host
entries are rich JS objects produced by the out-of-scope field-mapping code
(spec section 1 non-goals); they are carried opaquely as strings since no
claim inspects their content. -/
structure ParsedNmapResult where
  hosts : List String
  stats : ScanStats
deriving DecidableEq

/-- The all-empty default result the parser returns for empty or unparseable
input (nmapXmlParser.ts lines 54-63 and 114-123). -/
def emptyParsedResult : ParsedNmapResult :=
  { hosts := [], stats := ⟨0, 0, 0, 0, 0⟩ }

/-! Structurally recursive embeddings of the JS string operations the
sources use (String.prototype.split, trim, startsWith, includes), so that
every definition evaluates by kernel reduction. -/

/-- Split a character list on a separator character; JS split semantics
(a trailing separator yields a trailing empty piece, the empty string
yields one empty piece). -/
def splitCharsOn (c : Char) : List Char → List (List Char)
  | [] => [[]]
  | ch :: rest =>
      if ch = c then [] :: splitCharsOn c rest
      else
        match splitCharsOn c rest with
        | [] => [[ch]]
        | piece :: pieces => (ch :: piece) :: pieces

/-- JS String.prototype.split with separator newline. -/
def jsSplitNewlines (s : String) : List String :=
  (splitCharsOn (Char.ofNat 10) s.toList).map String.mk

/-- JS String.prototype.trim: strip leading and trailing whitespace. -/
def jsTrim (s : String) : String :=
  String.mk
    (((s.toList.dropWhile Char.isWhitespace).reverse.dropWhile
      Char.isWhitespace).reverse)

/-- Character-list prefix test. -/
def charsPrefix : List Char → List Char → Bool
  | [], _ => true
  | _ :: _, [] => false
  | a :: as, b :: bs => a = b && charsPrefix as bs

/-- JS String.prototype.startsWith. -/
def jsStartsWith (s pat : String) : Bool :=
  charsPrefix pat.toList s.toList

/-- The central session entity, from scanSessionManager.ts: ScanSession.
`result: any | null` and `errorMessage: string | null` become Options;
`xmlBuffer` is the resultBuffer of the spec. -/
structure ScanSession where
  id : String
  status : ScanStatus
  createdAt : Int
  logs : List String
  xmlBuffer : String
  result : Option ParsedNmapResult
  errorMessage : Option String
  target : String
  profile : String
  userId : String
deriving DecidableEq

/-- One event emitted through the per-session EventEmitter channels
(`log:${id}`, `status:${id}`, `done:${id}`, `error:${id}`). -/
inductive SessionEvent
  | logEv (sessionId : String) (message : String)
  | statusEv (sessionId : String) (status : ScanStatus)
  | doneEv (sessionId : String) (result : ParsedNmapResult)
  | errorEv (sessionId : String) (message : String)
deriving DecidableEq

/-- The Session Store state: the sessions registry plus the ordered list of
all events emitted so far (the broadcaster delivers synchronously, so this
list is the delivery order observed by every subscriber). -/
structure MgrState where
  sessions : String → Option ScanSession
  events : List SessionEvent

/-- The registry right after construction: no sessions, nothing emitted. -/
def initialMgrState : MgrState :=
  { sessions := fun _ => none, events := [] }

namespace ScanSessionManager

/-- JS Map.set on the embedded registry. -/
def setSession (m : String → Option ScanSession) (sessionId : String)
    (s : ScanSession) : String → Option ScanSession :=
  fun k => if k = sessionId then some s else m k

/-- The session object literal built by createSession
(scanSessionManager.ts lines 72-83). -/
def freshSession (sessionId target profile userId : String) (now : Int) :
    ScanSession :=
  { id := sessionId, status := .starting, createdAt := now, logs := [],
    xmlBuffer := "", result := none, errorMessage := none,
    target := target, profile := profile, userId := userId }

/-- createSession (scanSessionManager.ts lines 71-92): unconditionally stores
a fresh session under the id (Map.set overwrites any existing entry) and
emits a starting status event.  `now` is the Date.now() timestamp. -/
def createSession (st : MgrState) (sessionId target profile userId : String)
    (now : Int) : MgrState × ScanSession :=
  let session := freshSession sessionId target profile userId now
  ({ sessions := setSession st.sessions sessionId session,
     events := st.events ++ [.statusEv sessionId .starting] }, session)

/-- updateStatus (lines 104-111): no-op when the session is absent, otherwise
sets the status and emits a status event carrying it. -/
def updateStatus (st : MgrState) (sessionId : String) (status : ScanStatus) :
    MgrState :=
  match st.sessions sessionId with
  | none => st
  | some s =>
      { sessions := setSession st.sessions sessionId { s with status := status },
        events := st.events ++ [.statusEv sessionId status] }

/-- The log-list transformation inside addLog (lines 119-124): when the
buffer holds 200 or more lines the oldest is shifted off, then the new line
is pushed. -/
def addLogList (logs : List String) (message : String) : List String :=
  (if logs.length ≥ 200 then logs.tail else logs) ++ [message]

/-- addLog (lines 116-135): bounded append plus a log event carrying exactly
the new line. -/
def addLog (st : MgrState) (sessionId message : String) : MgrState :=
  match st.sessions sessionId with
  | none => st
  | some s =>
      { sessions := setSession st.sessions sessionId
          { s with logs := addLogList s.logs message },
        events := st.events ++ [.logEv sessionId message] }

/-- appendXmlOutput (lines 140-149): concatenates onto the result buffer; no
event is emitted. -/
def appendXmlOutput (st : MgrState) (sessionId xmlChunk : String) : MgrState :=
  match st.sessions sessionId with
  | none => st
  | some s =>
      { sessions := setSession st.sessions sessionId
          { s with xmlBuffer := s.xmlBuffer ++ xmlChunk },
        events := st.events }

/-- completeScan (lines 154-169): status done, result set, errorMessage
cleared; emits a done event and nothing else. -/
def completeScan (st : MgrState) (sessionId : String)
    (result : ParsedNmapResult) : MgrState :=
  match st.sessions sessionId with
  | none => st
  | some s =>
      { sessions := setSession st.sessions sessionId
          { s with status := .done, result := some result, errorMessage := none },
        events := st.events ++ [.doneEv sessionId result] }

/-- failScan (lines 174-185): status error, errorMessage set, result
cleared; emits an error event and nothing else. -/
def failScan (st : MgrState) (sessionId errorMessage : String) : MgrState :=
  match st.sessions sessionId with
  | none => st
  | some s =>
      { sessions := setSession st.sessions sessionId
          { s with status := .error, errorMessage := some errorMessage,
                   result := none },
        events := st.events ++ [.errorEv sessionId errorMessage] }

/-- removeSession (lines 190-196): deletes the registry entry. -/
def removeSession (st : MgrState) (sessionId : String) : MgrState :=
  { st with sessions := fun k => if k = sessionId then none else st.sessions k }

/-- cleanupExpiredSessions (lines 210-228): the Reaper sweep.  Removes every
session whose status is done or error and whose createdAt is strictly older
than now minus ten minutes.  The source iterates the map entries and calls
removeSession on each match; pointwise filtering embeds that loop. -/
def cleanupExpiredSessions (st : MgrState) (now : Int) : MgrState :=
  { st with sessions := fun k =>
      match st.sessions k with
      | none => none
      | some s =>
          if (s.status = .done ∨ s.status = .error) ∧ s.createdAt < now - 600000
          then none else some s }

end ScanSessionManager

/-! Argument Builder (backend/src/types/scanConfig.ts and
backend/src/utils/nmapArgsBuilder.ts). -/

/-- Scan profile union type from scanConfig.ts. -/
inductive ScanProfile
  | quick
  | balanced
  | full
  | custom
deriving DecidableEq

/-- Timing template union type from scanConfig.ts. -/
inductive TimingTemplate
  | T0 | T1 | T2 | T3 | T4 | T5
deriving DecidableEq

/-- The literal text of a timing template value. -/
def TimingTemplate.text : TimingTemplate → String
  | .T0 => "T0" | .T1 => "T1" | .T2 => "T2"
  | .T3 => "T3" | .T4 => "T4" | .T5 => "T5"

/-- Port mode union type from scanConfig.ts. -/
inductive PortMode
  | default
  | top100
  | top1000
  | fast
  | custom
deriving DecidableEq

/-- Verbosity level union type from scanConfig.ts (0, 1 or 2). -/
inductive VerbosityLevel
  | v0 | v1 | v2
deriving DecidableEq

/-- Scan configuration structure from scanConfig.ts.  The numeric fields are
positive integers in every value the repository constructs, so they are
embedded as Nat. -/
structure ScanConfig where
  target : String
  scanProfile : ScanProfile
  timingTemplate : TimingTemplate
  hostTimeoutSeconds : Nat
  maxRetries : Option Nat
  minRate : Option Nat
  maxRate : Option Nat
  serviceDetection : Bool
  osDetection : Bool
  noDnsResolution : Bool
  skipHostDiscovery : Bool
  onlyOpenPorts : Bool
  portMode : PortMode
  portsCustom : Option String
  tcpSynScan : Bool
  tcpConnectScan : Bool
  udpScan : Bool
  treatAsOnline : Bool
  verbosity : VerbosityLevel
deriving DecidableEq

/-- buildPortArgs (nmapArgsBuilder.ts lines 365-394).  The custom branch
strips every whitespace character (the JS replace with a whitespace class)
before forming the -p argument. -/
def buildPortArgs (config : ScanConfig) : List String :=
  match config.portMode with
  | .top100 => ["--top-ports=100"]
  | .top1000 => ["--top-ports=1000"]
  | .fast => ["-F"]
  | .custom =>
      match config.portsCustom with
      | none => []
      | some ports =>
          let cleanPorts := String.mk (ports.toList.filter (fun c => ¬ c.isWhitespace))
          if cleanPorts.length > 0 then ["-p" ++ cleanPorts] else []
  | .default => []

/-- buildVerbosityArgs (nmapArgsBuilder.ts lines 399-409). -/
def buildVerbosityArgs : VerbosityLevel → List String
  | .v1 => ["-v"]
  | .v2 => ["-vv"]
  | .v0 => []

/-- buildNmapArgs (nmapArgsBuilder.ts lines 289-360): the flat whitelisted
argument array, XML output first, target last. -/
def buildNmapArgs (config : ScanConfig) : List String :=
  ["-oX", "-"]
  ++ ["-" ++ config.timingTemplate.text]
  ++ (if config.noDnsResolution then ["-n"] else [])
  ++ (if config.skipHostDiscovery || config.treatAsOnline then ["-Pn"] else [])
  ++ (if config.serviceDetection then ["-sV"] else [])
  ++ (if config.osDetection then ["-O"] else [])
  ++ buildPortArgs config
  ++ (if config.tcpSynScan then ["-sS"]
      else if config.tcpConnectScan then ["-sT"] else [])
  ++ (if config.udpScan then ["-sU"] else [])
  ++ (if config.onlyOpenPorts then ["--open"] else [])
  ++ ["--host-timeout=" ++ toString config.hostTimeoutSeconds ++ "s"]
  ++ (match config.maxRetries with
      | some n => ["--max-retries=" ++ toString n] | none => [])
  ++ (match config.minRate with
      | some n => ["--min-rate=" ++ toString n] | none => [])
  ++ (match config.maxRate with
      | some n => ["--max-rate=" ++ toString n] | none => [])
  ++ buildVerbosityArgs config.verbosity
  ++ ["--stats-every", "2s"]
  ++ [config.target]

/-- The dangerous flag list of validateGeneratedArgs
(nmapArgsBuilder.ts lines 427-432). -/
def dangerousFlags : List String :=
  ["--script", "--script-args", "--script-help", "--script-trace",
   "--reason", "--packet-trace", "--send-eth", "--send-ip",
   "--privileged", "--unprivileged", "--release-memory",
   "--datadir", "--servicedb", "--versiondb"]

/-- The shell metacharacter class of validateGeneratedArgs
(nmapArgsBuilder.ts line 441). -/
def shellMetaChars : List Char :=
  "$`|&;()\x7b\x7d[]<>".toList

/-- validateGeneratedArgs (nmapArgsBuilder.ts lines 426-447): rejects any
argument starting with a dangerous flag or containing a shell
metacharacter. -/
def validateGeneratedArgs (args : List String) : Bool :=
  args.all (fun arg =>
    ¬ dangerousFlags.any (fun d => jsStartsWith arg d)
    && ¬ arg.toList.any (fun c => shellMetaChars.contains c))

/-! Result Parser boundary (backend/src/services/parser/nmapXmlParser.ts). -/

namespace NmapXmlParser

/-- parse (nmapXmlParser.ts lines 50-125).  The underlying fast-xml-parser
invocation plus the host/stats field extraction (spec section 1 non-goals)
is abstracted as `inner`, which either yields an extracted result or fails
like a thrown JS exception.  What the source adds around it is embedded
exactly: the guard returning the empty default when the input is absent or
blank, and the catch-all returning the empty default when the inner parser
throws.  The function is total: no failure ever escapes it. -/
def parse (inner : String → Except String ParsedNmapResult)
    (xmlOutput : String) : ParsedNmapResult :=
  if jsTrim xmlOutput = "" then emptyParsedResult
  else
    match inner xmlOutput with
    | .ok parsed => parsed
    | .error _ => emptyParsedResult

end NmapXmlParser

/-! Process Runner (backend/src/services/nmapService.ts). -/

/-- Result record resolved by the runner (nmapService.ts: NmapScanResult).
exitCode is `number | null` in the source. -/
structure NmapScanResult where
  stdout : String
  stderr : String
  exitCode : Option Int
  duration : Nat
deriving DecidableEq

/-- How one subprocess invocation ends: a close event at `t` milliseconds
after spawn with an exit code, a spawn-level error event, or no exit at all
(the process hangs until killed). -/
inductive ProcEnding
  | closesAt (t : Nat) (code : Option Int)
  | spawnErrorEvt (msg : String)
  | runsForever
deriving DecidableEq

/-- Observable behavior of one spawned subprocess: the chunk sequences its
two output streams deliver, and how it ends.  Within-stream order is
preserved (spec section 5); the two streams have no mutual order, so the
embedding drains stdout then stderr. -/
structure ProcBehavior where
  stdoutChunks : List String
  stderrChunks : List String
  ending : ProcEnding
deriving DecidableEq

/-- The distinguished rejection kinds of the streaming runner. -/
inductive RunError
  | notInstalled (msg : String)
  | execError (msg : String)
  | timedOut (msg : String)
deriving DecidableEq

/-- The message carried by a runner rejection (JS error.message). -/
def RunError.message : RunError → String
  | .notInstalled m => m
  | .execError m => m
  | .timedOut m => m

/-- The record of one call to the child_process spawn primitive.  The source
passes the options object with windowsHide and timeout only; the shell
option is absent, so Node runs the executable directly with the argument
array and `shell` is false. -/
structure SpawnCall where
  cmd : String
  args : List String
  shell : Bool
  windowsHide : Bool
  timeoutOpt : Option Nat
deriving DecidableEq

/-- JS String.prototype.includes: substring containment test. -/
def jsIncludes (s pat : String) : Bool :=
  (List.range (s.length + 1)).any
    (fun i => decide ((s.toList.drop i).take pat.length = pat.toList))

/-- nmapService.ts lines 266 and 322: executable name by platform. -/
def nmapExecutable (isWin32 : Bool) : String :=
  if isWin32 then "nmap.exe" else "nmap"

/-- The message the dead manual-timeout branch constructs (nmapService.ts
line 384); never produced at runtime, see runNmapCommandWithStreaming. -/
def timeoutMessage (timeoutMs : Nat) : String :=
  "Nmap scan timed out after " ++ toString timeoutMs ++ "ms"

/-- The stderr data handler (nmapService.ts lines 347-359): the chunk is
split on newlines and every nonempty trimmed line becomes one addLog call. -/
def processStderrChunk (st : MgrState) (sessionId chunk : String) : MgrState :=
  (jsSplitNewlines chunk).foldl
    (fun acc line =>
      let trimmedLine := jsTrim line
      if trimmedLine ≠ "" then ScanSessionManager.addLog acc sessionId trimmedLine
      else acc)
    st

/-- Drains both subprocess streams into the Session Store: every stdout
chunk through appendXmlOutput (lines 339-344), every stderr chunk through
the line splitter (lines 347-359). -/
def drainStreams (st : MgrState) (sessionId : String) (proc : ProcBehavior) :
    MgrState :=
  let st1 := proc.stdoutChunks.foldl
    (fun acc c => ScanSessionManager.appendXmlOutput acc sessionId c) st
  proc.stderrChunks.foldl (fun acc c => processStderrChunk acc sessionId c) st1

/-- runNmapCommandWithStreaming (nmapService.ts lines 317-395).  Two timers
are armed for the same duration: the spawn option timeout (line 332), whose
internal timer Node registers inside spawn() and which on expiry kills the
child with SIGTERM and sets the killed flag, and the manual setTimeout
(lines 381-388) registered afterwards, whose body is guarded by the negated
killed flag.  Same-deadline timers fire in registration order, so on expiry
the spawn-option timer kills first and sets the flag; the manual callback
then finds its guard false and does nothing, which makes its
failScan-and-reject branch dead code (the timedOut rejection kind and
timeoutMessage below embed that dead branch but are never produced).  The
close event of the killed child then resolves the promise with exit code
null and clears the manual timer (lines 391-393).  A close event at or
before the deadline resolves with the accumulated output and the real exit
code.  A spawn error event rejects with the distinguished not-installed
message when the JS message contains "spawn nmap"; no stream data is
delivered by a process that failed to spawn. -/
def runNmapCommandWithStreaming (isWin32 : Bool) (args : List String)
    (timeoutMs : Nat) (sessionId : String) (st : MgrState)
    (proc : ProcBehavior) :
    Except RunError NmapScanResult × MgrState × SpawnCall :=
  let call : SpawnCall :=
    { cmd := nmapExecutable isWin32, args := args, shell := false,
      windowsHide := true, timeoutOpt := some timeoutMs }
  match proc.ending with
  | .spawnErrorEvt msg =>
      if jsIncludes msg "spawn nmap" then
        (.error (.notInstalled
          "Nmap is not installed or not in PATH. Please install Nmap to use this feature."),
         st, call)
      else
        (.error (.execError ("Nmap execution error: " ++ msg)), st, call)
  | .closesAt t code =>
      let st2 := drainStreams st sessionId proc
      if t ≤ timeoutMs then
        (.ok { stdout := String.join proc.stdoutChunks,
               stderr := String.join proc.stderrChunks,
               exitCode := code, duration := 0 }, st2, call)
      else
        (.ok { stdout := String.join proc.stdoutChunks,
               stderr := String.join proc.stderrChunks,
               exitCode := none, duration := 0 }, st2, call)
  | .runsForever =>
      let st2 := drainStreams st sessionId proc
      (.ok { stdout := String.join proc.stdoutChunks,
             stderr := String.join proc.stderrChunks,
             exitCode := none, duration := 0 }, st2, call)

/-- One entry of the configuration validation report. -/
structure ValidationError where
  field : String
  message : String
deriving DecidableEq

/-- executeScanWithStreaming (nmapService.ts lines 96-162).  The
configuration validator lives in backend/src/utils/scanValidation.ts, which
only gates whether the scan runs at all, so it is taken as a parameter and
every theorem below holds for all validators.  The catch block (lines
146-161) turns any failure into failScan with the inner message followed by
a rethrow of the wrapped message. -/
def executeScanWithStreaming (isWin32 : Bool)
    (validator : ScanConfig → List ValidationError) (scanConfig : ScanConfig)
    (sessionId : String) (st : MgrState) (proc : ProcBehavior) :
    Except String NmapScanResult × MgrState × Option SpawnCall :=
  let validationErrors := validator scanConfig
  if validationErrors.length > 0 then
    let msg := "Invalid scan configuration: "
      ++ String.intercalate "; "
          (validationErrors.map (fun e => e.field ++ ": " ++ e.message))
    (.error ("Streaming Nmap scan failed: " ++ msg),
     ScanSessionManager.failScan st sessionId msg, none)
  else
    let args := buildNmapArgs scanConfig
    if ¬ validateGeneratedArgs args then
      let msg := "Generated Nmap arguments failed safety validation"
      (.error ("Streaming Nmap scan failed: " ++ msg),
       ScanSessionManager.failScan st sessionId msg, none)
    else
      let timeoutBuffer := 30000
      let totalTimeout := scanConfig.hostTimeoutSeconds * 1000 + timeoutBuffer
      let (res, st1, call) :=
        runNmapCommandWithStreaming isWin32 args totalTimeout sessionId st proc
      match res with
      | .ok r => (.ok { r with duration := 0 }, st1, some call)
      | .error e =>
          (.error ("Streaming Nmap scan failed: " ++ e.message),
           ScanSessionManager.failScan st1 sessionId e.message, some call)

/-! Result Finalizer flows (backend/src/controllers/ScanController.ts). -/

/-- Outcome of one background scan flow: the final Session Store state, the
sequence of status values written to the persisted scan record, and the
spawn call if one was made. -/
structure FlowResult where
  mgr : MgrState
  dbStatuses : List String
  spawnCall : Option SpawnCall

/-- The unchecked `scan.profile as ScanProfile` cast of ScanController.ts
line 119, resolved on the string values the schema stores. -/
def profileOfString (p : String) : ScanProfile :=
  if p = "quick" then .quick
  else if p = "balanced" then .balanced
  else if p = "full" then .full
  else .custom

/-- The profile strings written at session creation. -/
def ScanProfile.text : ScanProfile → String
  | .quick => "quick" | .balanced => "balanced"
  | .full => "full" | .custom => "custom"

/-- The fixed scan configuration the standard path builds
(ScanController.ts lines 117-133). -/
def standardScanConfig (target profile : String) : ScanConfig :=
  { target := target, scanProfile := profileOfString profile,
    timingTemplate := .T4, hostTimeoutSeconds := 600,
    maxRetries := none, minRate := none, maxRate := none,
    serviceDetection := profile == "full", osDetection := profile == "full",
    noDnsResolution := true, skipHostDiscovery := false,
    onlyOpenPorts := true, portMode := .default, portsCustom := none,
    tcpSynScan := false, tcpConnectScan := true, udpScan := false,
    treatAsOnline := false, verbosity := .v2 }

/-- executeScanInBackground (ScanController.ts lines 102-192), the standard
path Finalizer.  `scanExists` is the Scan.findById outcome.  On success the
result buffer is parsed and completeScan is invoked; the catch block (lines
174-191) only rewrites the persisted record to failed (the service already
ran failScan before rethrowing). -/
def executeScanInBackground (isWin32 : Bool)
    (validator : ScanConfig → List ValidationError)
    (inner : String → Except String ParsedNmapResult) (scanExists : Bool)
    (scanTarget scanProfile : String) (st : MgrState)
    (scanId sessionId : String) (proc : ProcBehavior) : FlowResult :=
  if ¬ scanExists then { mgr := st, dbStatuses := [], spawnCall := none }
  else
    let st1 := ScanSessionManager.updateStatus st sessionId .running
    let scanConfig := standardScanConfig scanTarget scanProfile
    let (res, st2, call) :=
      executeScanWithStreaming isWin32 validator scanConfig scanId st1 proc
    match res with
    | .ok r =>
        let parsedResult := NmapXmlParser.parse inner r.stdout
        let st3 := ScanSessionManager.completeScan st2 sessionId parsedResult
        { mgr := st3, dbStatuses := ["running", "completed"], spawnCall := call }
    | .error _ =>
        { mgr := st2, dbStatuses := ["running", "failed"], spawnCall := call }

/-- executeCustomScanWithStreaming (ScanController.ts lines 533-600), the
custom-builder path.  It never calls updateStatus on the session; on success
it parses the buffer and writes the persisted record (the parsed result is
never handed to the Session Store), and the catch block only rewrites the
persisted record to failed. -/
def executeCustomScanWithStreaming (isWin32 : Bool)
    (validator : ScanConfig → List ValidationError)
    (inner : String → Except String ParsedNmapResult) (scanExists : Bool)
    (scanConfig : ScanConfig) (st : MgrState) (scanId : String)
    (proc : ProcBehavior) : FlowResult :=
  if ¬ scanExists then { mgr := st, dbStatuses := [], spawnCall := none }
  else
    let (res, st1, call) :=
      executeScanWithStreaming isWin32 validator scanConfig scanId st proc
    match res with
    | .ok r =>
        let _parsedResult := NmapXmlParser.parse inner r.stdout
        { mgr := st1, dbStatuses := ["running", "completed"], spawnCall := call }
    | .error _ =>
        { mgr := st1, dbStatuses := ["running", "failed"], spawnCall := call }

/-- startScan followed by its background task (ScanController.ts lines
26-99 then 102-192): the session is created first, with the persisted scan
id as session id, then the standard flow runs. -/
def fullStandardScan (isWin32 : Bool)
    (validator : ScanConfig → List ValidationError)
    (inner : String → Except String ParsedNmapResult) (scanExists : Bool)
    (target profile userId scanId : String) (now : Int) (st : MgrState)
    (proc : ProcBehavior) : FlowResult :=
  let (st1, _session) :=
    ScanSessionManager.createSession st scanId target profile userId now
  executeScanInBackground isWin32 validator inner scanExists target profile
    st1 scanId scanId proc

/-- startCustomScan followed by its background task (ScanController.ts
lines 470-530 then 533-600). -/
def fullCustomScan (isWin32 : Bool)
    (validator : ScanConfig → List ValidationError)
    (inner : String → Except String ParsedNmapResult) (scanExists : Bool)
    (scanConfig : ScanConfig) (userId scanId : String) (now : Int)
    (st : MgrState) (proc : ProcBehavior) : FlowResult :=
  let (st1, _session) :=
    ScanSessionManager.createSession st scanId scanConfig.target
      scanConfig.scanProfile.text userId now
  executeCustomScanWithStreaming isWin32 validator inner scanExists
    scanConfig st1 scanId proc

/-! Streaming Endpoint (ScanController.ts streamScanLogs, lines 630-791). -/

/-- One frame written to the held-open response. -/
inductive Frame
  | connectedF (scanId : String) (status : ScanStatus)
  | logF (message : String)
  | statusF (status : ScanStatus)
  | doneF (result : ParsedNmapResult)
  | errorF (message : String)
deriving DecidableEq

/-- Endpoint outcome: an HTTP rejection before upgrading, or the stream of
frames written. -/
inductive StreamOutcome
  | rejected (httpStatus : Nat)
  | streamed (frames : List Frame)
deriving DecidableEq

/-- The four registered handlers as one step over an emitted event
(ScanController.ts lines 727-753).  The emitter delivers an event to this
connection only while its listeners are registered and only on the channels
of its session id; the done and error handlers write their frame and then
run cleanup, unsubscribing all four listeners. -/
def handleEvent (scanId : String) (sub : List Frame × Bool)
    (e : SessionEvent) : List Frame × Bool :=
  if ¬ sub.2 then sub
  else
    match e with
    | .logEv sid m =>
        if sid = scanId then (sub.1 ++ [.logF m], true) else sub
    | .statusEv sid s =>
        if sid = scanId then (sub.1 ++ [.statusF s], true) else sub
    | .doneEv sid r =>
        if sid = scanId then (sub.1 ++ [.doneF r], false) else sub
    | .errorEv sid m =>
        if sid = scanId then (sub.1 ++ [.errorF m], false) else sub

/-- streamScanLogs (ScanController.ts lines 630-791).  Auth check (401),
session lookup (404), ownership check (403); then, in one synchronous turn:
the connected frame, the replay of the buffered logs, and the subscription
of the four handlers (lines 714-753 contain no await, so no event can fall
between the replay and the subscription).  `live` is the sequence of events
the broadcaster emits after that turn. -/
def streamScanLogs (st : MgrState) (auth : Option String) (scanId : String)
    (live : List SessionEvent) : StreamOutcome :=
  match auth with
  | none => .rejected 401
  | some userId =>
      match st.sessions scanId with
      | none => .rejected 404
      | some session =>
          if session.userId ≠ userId then .rejected 403
          else
            let replay : List Frame :=
              [.connectedF scanId session.status] ++ session.logs.map .logF
            .streamed (live.foldl (handleEvent scanId) (replay, true)).1

/-! Derived notions used to state the claims. -/

/-- The session id an event was emitted for (the EventEmitter channel key
suffix). -/
def SessionEvent.sid : SessionEvent → String
  | .logEv sid _ => sid
  | .statusEv sid _ => sid
  | .doneEv sid _ => sid
  | .errorEv sid _ => sid

/-- Whether an event is of the done or error kind (on these, the endpoint
handlers run cleanup and close the connection). -/
def isTerminalEv : SessionEvent → Bool
  | .doneEv _ _ => true
  | .errorEv _ _ => true
  | _ => false

/-- Whether an event is of the error kind. -/
def isErrorEv : SessionEvent → Bool
  | .errorEv _ _ => true
  | _ => false

/-- Whether an event is of the done kind. -/
def isDoneEv : SessionEvent → Bool
  | .doneEv _ _ => true
  | _ => false

/-- The frame the registered handler of each event kind writes
(ScanController.ts lines 727-747). -/
def eventFrame : SessionEvent → Frame
  | .logEv _ m => .logF m
  | .statusEv _ s => .statusF s
  | .doneEv _ r => .doneF r
  | .errorEv _ m => .errorF m

/-- Closed form of the live forwarding of streamScanLogs: events on the
channels of this session are written as frames in emission order, up to and
including the first done or error event (whose handler unsubscribes all
listeners); events of other sessions pass by unseen. -/
def liveFrames (scanId : String) : List SessionEvent → List Frame
  | [] => []
  | e :: rest =>
      if e.sid = scanId then
        if isTerminalEv e then [eventFrame e]
        else eventFrame e :: liveFrames scanId rest
      else liveFrames scanId rest

/-- An event that is not a status-kind event carrying done or error. -/
def tameEvent : SessionEvent → Bool
  | .statusEv _ s => s = .starting || s = .running
  | _ => true

/-- Every status-kind event in the list carries a non-terminal status. -/
def statusEventsTame (events : List SessionEvent) : Bool :=
  events.all tameEvent

/-- The second state extends the event list of the first only with events
satisfying p. -/
def EventsExt (p : SessionEvent → Bool) (st st2 : MgrState) : Prop :=
  ∀ e ∈ st2.events, e ∈ st.events ∨ p e = true

/-- The Session Store mutation surface the terminal-fields invariant claim
quantifies over: createSession, updateStatus, addLog, appendResultBuffer,
completeScan (with a result, which is never null by type) and failScan. -/
inductive StoreOp
  | createOp (sessionId target profile userId : String) (now : Int)
  | updateStatusOp (sessionId : String) (status : ScanStatus)
  | addLogOp (sessionId message : String)
  | appendXmlOp (sessionId chunk : String)
  | completeOp (sessionId : String) (result : ParsedNmapResult)
  | failOp (sessionId message : String)

/-- Apply one Session Store operation. -/
def applyOp (st : MgrState) : StoreOp → MgrState
  | .createOp sessionId target profile userId now =>
      (ScanSessionManager.createSession st sessionId target profile userId now).1
  | .updateStatusOp sessionId status =>
      ScanSessionManager.updateStatus st sessionId status
  | .addLogOp sessionId message =>
      ScanSessionManager.addLog st sessionId message
  | .appendXmlOp sessionId chunk =>
      ScanSessionManager.appendXmlOutput st sessionId chunk
  | .completeOp sessionId result =>
      ScanSessionManager.completeScan st sessionId result
  | .failOp sessionId message =>
      ScanSessionManager.failScan st sessionId message

/-- Apply a sequence of Session Store operations. -/
def runOps (st : MgrState) (ops : List StoreOp) : MgrState :=
  ops.foldl applyOp st

/-- An updateStatus call is tame when it carries a non-terminal status and
its target session is not already terminal.  This is exactly how the
repository calls updateStatus (ScanController.ts line 114 passes running to
a session that is starting); the other five operations are unrestricted. -/
def opTame (st : MgrState) : StoreOp → Bool
  | .updateStatusOp sessionId status =>
      !(status = .done || status = .error)
      && (match st.sessions sessionId with
          | some s => !(s.status = .done || s.status = .error)
          | none => true)
  | _ => true

/-- Run a sequence of operations while checking tameness of every
updateStatus call against the state it executes in. -/
def runOpsChecked (st : MgrState) (ops : List StoreOp) : MgrState × Bool :=
  ops.foldl (fun acc op => (applyOp acc.1 op, acc.2 && opTame acc.1 op))
    (st, true)

/-- The terminal-fields shape of one session: both outcome fields null while
non-terminal, exactly one non-null in each terminal status. -/
def terminalFieldsOk (s : ScanSession) : Prop :=
  ((s.status = .starting ∨ s.status = .running) →
    s.result = none ∧ s.errorMessage = none)
  ∧ (s.status = .done → s.result.isSome = true ∧ s.errorMessage = none)
  ∧ (s.status = .error → s.errorMessage.isSome = true ∧ s.result = none)

/-- Every registered session satisfies the terminal-fields shape. -/
def MgrInv (st : MgrState) : Prop :=
  ∀ sessionId s, st.sessions sessionId = some s → terminalFieldsOk s

/-- Numbered log lines used for the 250-line scenario. -/
def mkLines (n : Nat) : List String :=
  (List.range n).map (fun i => "line-" ++ toString (i + 1))

/-- A concrete custom scan configuration (the one the repository test
script part_002 builds). -/
def sampleScanConfig : ScanConfig :=
  { target := "192.168.1.1", scanProfile := .quick, timingTemplate := .T4,
    hostTimeoutSeconds := 30, maxRetries := none, minRate := none,
    maxRate := none, serviceDetection := false, osDetection := false,
    noDnsResolution := true, skipHostDiscovery := false,
    onlyOpenPorts := true, portMode := .fast, portsCustom := none,
    tcpSynScan := false, tcpConnectScan := true, udpScan := false,
    treatAsOnline := false, verbosity := .v1 }

/-- A concrete subprocess behavior: one XML chunk, two progress lines,
normal exit code zero after one second. -/
def sampleProc : ProcBehavior :=
  { stdoutChunks := ["<nmaprun></nmaprun>"],
    stderrChunks := ["Starting Nmap\nStats: 0:00:01 elapsed\n"],
    ending := .closesAt 1000 (some 0) }

/-- A validator that accepts every configuration. -/
def acceptAll : ScanConfig → List ValidationError := fun _ => []

/-- An inner XML parse that fails on every input, standing for
fast-xml-parser throwing on malformed text. -/
def failingInner : String → Except String ParsedNmapResult :=
  fun _ => .error "unexpected token"

/-- A registry holding one session under id s1 that has received a log line
and moved to running. -/
def c6PriorState : MgrState :=
  ScanSessionManager.updateStatus
    (ScanSessionManager.addLog
      (ScanSessionManager.createSession initialMgrState "s1" "10.0.0.5"
        "quick" "u1" 0).1
      "s1" "hello")
    "s1" .running

/-- createSession called again under the already-used id s1. -/
def c6SecondCreate : MgrState × ScanSession :=
  ScanSessionManager.createSession c6PriorState "s1" "10.0.0.9" "full" "u2" 5

/-- An operation sequence from the claimed surface that drives a session
into done status through updateStatus alone. -/
def c5BadOps : List StoreOp :=
  [.createOp "s1" "10.0.0.5" "quick" "u1" 0, .updateStatusOp "s1" .done]

/-- A tame operation sequence exercising every operation kind. -/
def c5GoodOps : List StoreOp :=
  [.createOp "s1" "10.0.0.5" "quick" "u1" 0,
   .updateStatusOp "s1" .running,
   .addLogOp "s1" "hello",
   .appendXmlOp "s1" "<xml>",
   .completeOp "s1" emptyParsedResult]

/-- The spawn call the service makes for sampleScanConfig. -/
def c1SampleCall : SpawnCall :=
  { cmd := "nmap", args := buildNmapArgs sampleScanConfig, shell := false,
    windowsHide := true, timeoutOpt := some 60000 }

/-- A subprocess that exits normally with EMPTY structured output: the
parse-failure scenario of the error-handling taxonomy. -/
def c2Proc : ProcBehavior :=
  { stdoutChunks := [], stderrChunks := ["Starting Nmap"],
    ending := .closesAt 1000 (some 0) }

/-- The standard scan flow run against the empty-output subprocess. -/
def c2Flow : FlowResult :=
  fullStandardScan false acceptAll failingInner true "10.0.0.5" "quick" "u1"
    "scan1" 0 initialMgrState c2Proc

/-- The custom-builder scan flow run against a successfully exiting
subprocess. -/
def c3Flow : FlowResult :=
  fullCustomScan false acceptAll failingInner true sampleScanConfig "u1"
    "scan2" 0 initialMgrState sampleProc

/-- A subprocess that never exits on its own: the spawn-option timer kills
it at the armed deadline. -/
def c8HangingProc : ProcBehavior :=
  { stdoutChunks := [], stderrChunks := [], ending := .runsForever }

/-- The standard scan flow run against the hanging subprocess. -/
def c8KilledFlow : FlowResult :=
  fullStandardScan false acceptAll failingInner true "10.0.0.5" "quick" "u1"
    "scan8" 0 initialMgrState c8HangingProc

/-- A registry holding one starting session under s1. -/
def c8State : MgrState :=
  (ScanSessionManager.createSession initialMgrState "s1" "192.168.1.1"
    "quick" "u1" 0).1

/-- A registry with one session under s1 holding two buffered log lines. -/
def c9State : MgrState :=
  ScanSessionManager.addLog
    (ScanSessionManager.addLog
      (ScanSessionManager.createSession initialMgrState "s1" "10.0.0.5"
        "quick" "u1" 0).1
      "s1" "l1")
    "s1" "l2"

/-- The session stored in c9State. -/
def c9Session : ScanSession :=
  { ScanSessionManager.freshSession "s1" "10.0.0.5" "quick" "u1" 0
      with logs := ["l1", "l2"] }

/-- Events emitted after a subscriber connects to s1: one live log line, a
status event of an unrelated session, and the terminal done event. -/
def c9Live : List SessionEvent :=
  [.logEv "s1" "l3", .statusEv "other" .running,
   .doneEv "s1" emptyParsedResult]

/-- A registry where sessions a (created at 0) and b (created at 360000)
were completed in immediate succession. -/
def c7TwoDoneState : MgrState :=
  ScanSessionManager.completeScan
    (ScanSessionManager.completeScan
      (ScanSessionManager.createSession
        (ScanSessionManager.createSession initialMgrState "a" "10.0.0.5"
          "quick" "u1" 0).1
        "b" "10.0.0.5" "quick" "u1" 360000).1
      "a" emptyParsedResult)
    "b" emptyParsedResult

/-! Helper lemmas. -/

/-- Folding the bounded append from an empty buffer keeps exactly the most
recent 200 lines, in original order. -/
theorem addLogList_foldl_char (msgs : List String) :
    List.foldl ScanSessionManager.addLogList [] msgs
      = msgs.drop (msgs.length - 200) := by
  induction msgs using List.reverseRecOn with
  | nil => simp
  | append_singleton xs x ih =>
    rw [List.foldl_append, List.foldl_cons, List.foldl_nil, ih]
    unfold ScanSessionManager.addLogList
    by_cases h : xs.length < 200
    · have h0 : xs.length - 200 = 0 := by omega
      have h1 : xs.length + 1 - 200 = 0 := by omega
      rw [h0, List.drop_zero, if_neg (by omega), List.length_append]
      simp [h1]
    · have hlen : (xs.drop (xs.length - 200)).length = 200 := by
        rw [List.length_drop]; omega
      rw [if_pos (by omega), List.tail_drop, List.length_append]
      have h2 : xs.length - 200 + 1 = xs.length + 1 - 200 := by omega
      rw [h2, List.drop_append_eq_append_drop]
      have h3 : xs.length + 1 - 200 - xs.length = 0 := by omega
      simp [h3]

/-- Lifting of the buffer characterization through the Session Store: a fold
of addLog calls rewrites exactly the target session, applying the bounded
append to its log list. -/
theorem sessions_foldl_addLog (msgs : List String) :
    ∀ (st : MgrState) (scanId : String) (s : ScanSession),
      st.sessions scanId = some s →
      ((msgs.foldl (fun acc m => ScanSessionManager.addLog acc scanId m)
          st).sessions scanId)
        = some { s with logs := List.foldl ScanSessionManager.addLogList s.logs msgs } := by
  induction msgs with
  | nil =>
    intro st scanId s h
    simpa using h
  | cons m ms ih =>
    intro st scanId s h
    have h1 : (ScanSessionManager.addLog st scanId m).sessions scanId
        = some { s with logs := ScanSessionManager.addLogList s.logs m } := by
      simp [ScanSessionManager.addLog, h, ScanSessionManager.setSession]
    rw [List.foldl_cons, List.foldl_cons]
    exact ih _ _ _ h1

/-- Claim C4: for every session and every sequence of addLog calls, the log
buffer never exceeds 200 lines; at capacity the oldest line is dropped and
the new one appended, so a fold of addLog calls leaves exactly the most
recent 200 lines in original order; in particular 250 sequential lines on a
fresh session leave lines 51 through 250. -/
theorem c4_addLog_ring_buffer (messages : List String)
    (scanId target profile userId : String) (now : Int) :
    (∃ s,
      ((messages.foldl (fun acc m => ScanSessionManager.addLog acc scanId m)
          (ScanSessionManager.createSession initialMgrState scanId target
            profile userId now).1).sessions scanId) = some s
      ∧ s.logs = messages.drop (messages.length - 200)
      ∧ s.logs.length ≤ 200)
    ∧ List.foldl ScanSessionManager.addLogList [] (mkLines 250)
        = (mkLines 250).drop 50 := by
  constructor
  · have hcr : (ScanSessionManager.createSession initialMgrState scanId target
        profile userId now).1.sessions scanId
        = some (ScanSessionManager.freshSession scanId target profile userId now) := by
      simp [ScanSessionManager.createSession, ScanSessionManager.setSession]
    refine ⟨_, sessions_foldl_addLog messages _ scanId _ hcr, ?_, ?_⟩
    · show List.foldl ScanSessionManager.addLogList
        (ScanSessionManager.freshSession scanId target profile userId now).logs
        messages = _
      rw [show (ScanSessionManager.freshSession scanId target profile userId
        now).logs = [] from rfl, addLogList_foldl_char]
    · show (List.foldl ScanSessionManager.addLogList
        (ScanSessionManager.freshSession scanId target profile userId now).logs
        messages).length ≤ 200
      rw [show (ScanSessionManager.freshSession scanId target profile userId
        now).logs = [] from rfl, addLogList_foldl_char, List.length_drop]
      omega
  · rw [addLogList_foldl_char]
    have hl : (mkLines 250).length = 250 := by simp [mkLines]
    rw [hl]

/-- Claim C6 counterexample: createSession on an id that already exists is
not a no-op returning the existing session.  A session is created, receives
a log line and moves to running; a second createSession under the same id
then resets the stored logs to empty, the status to starting and the
provenance to the new arguments, and returns the fresh session. -/
theorem c6_counterexample :
    ((c6PriorState.sessions "s1").map ScanSession.logs = some ["hello"])
    ∧ ((c6PriorState.sessions "s1").map ScanSession.status = some .running)
    ∧ ((c6SecondCreate.1.sessions "s1").map ScanSession.logs = some [])
    ∧ ((c6SecondCreate.1.sessions "s1").map ScanSession.status = some .starting)
    ∧ ((c6SecondCreate.1.sessions "s1").map ScanSession.target = some "10.0.0.9")
    ∧ (c6SecondCreate.2.target = "10.0.0.9") := by
  decide

/-- Claim C6 amended: createSession on an id already present in the registry
is not a no-op.  It unconditionally overwrites the stored session with a
fresh one (status starting, empty logs, empty buffer, the new provenance
fields) and returns that fresh session, not the existing one. -/
theorem c6_createSession_overwrites (st : MgrState)
    (sessionId target profile userId : String) (now : Int)
    (prior : ScanSession) (_h : st.sessions sessionId = some prior) :
    ((ScanSessionManager.createSession st sessionId target profile userId
        now).1.sessions sessionId
      = some (ScanSessionManager.freshSession sessionId target profile userId now))
    ∧ ((ScanSessionManager.createSession st sessionId target profile userId
        now).2
      = ScanSessionManager.freshSession sessionId target profile userId now) := by
  refine ⟨?_, rfl⟩
  simp [ScanSessionManager.createSession, ScanSessionManager.setSession]

/-- Witness for c6_createSession_overwrites at a registry already holding
the id. -/
theorem c6_createSession_overwrites_witness :
    ((ScanSessionManager.createSession
        (ScanSessionManager.createSession initialMgrState "s1" "10.0.0.5"
          "quick" "u1" 0).1
        "s1" "10.0.0.9" "full" "u2" 5).1.sessions "s1"
      = some (ScanSessionManager.freshSession "s1" "10.0.0.9" "full" "u2" 5))
    ∧ ((ScanSessionManager.createSession
        (ScanSessionManager.createSession initialMgrState "s1" "10.0.0.5"
          "quick" "u1" 0).1
        "s1" "10.0.0.9" "full" "u2" 5).2
      = ScanSessionManager.freshSession "s1" "10.0.0.9" "full" "u2" 5) :=
  c6_createSession_overwrites _ "s1" "10.0.0.9" "full" "u2" 5
    (ScanSessionManager.freshSession "s1" "10.0.0.5" "quick" "u1" 0)
    (by decide)

/-- Claim C7 counterexample: eviction is not governed by the time since the
terminal transition.  Two sessions are completed in immediate succession
(the same instant on the retention clock the claim describes), one created
660 seconds before the sweep, the other 300 seconds before it.  The sweep
at now = 660000 evicts the first and keeps the second, so the sweep
distinguishes sessions whose time-since-terminal is identical: the claimed
rule (evict iff terminal and ten minutes since reaching the terminal state)
is false of the code. -/
theorem c7_counterexample :
    ((c7TwoDoneState.sessions "a").map ScanSession.status = some .done)
    ∧ ((c7TwoDoneState.sessions "b").map ScanSession.status = some .done)
    ∧ ((ScanSessionManager.cleanupExpiredSessions c7TwoDoneState
          660000).sessions "a" = none)
    ∧ (((ScanSessionManager.cleanupExpiredSessions c7TwoDoneState
          660000).sessions "b").map ScanSession.status = some .done) := by
  decide

/-- Claim C7 amended: a single Reaper sweep evicts a session if and only if
its status is terminal (done or error) and its createdAt timestamp is older
than ten minutes before the sweep time: retention is measured from session
creation, not from the terminal transition.  A non-terminal session is
never evicted regardless of age. -/
theorem c7_reaper_evicts_by_createdAt (st : MgrState) (now : Int)
    (sessionId : String) (s : ScanSession)
    (h : st.sessions sessionId = some s) :
    (((ScanSessionManager.cleanupExpiredSessions st now).sessions sessionId
        = none)
      ↔ ((s.status = .done ∨ s.status = .error) ∧ s.createdAt < now - 600000))
    ∧ (((ScanSessionManager.cleanupExpiredSessions st now).sessions sessionId
        = some s)
      ↔ ¬((s.status = .done ∨ s.status = .error) ∧ s.createdAt < now - 600000)) := by
  by_cases hc : (s.status = .done ∨ s.status = .error) ∧ s.createdAt < now - 600000
  · constructor
    · simp [ScanSessionManager.cleanupExpiredSessions, h, hc]
    · simp [ScanSessionManager.cleanupExpiredSessions, h, hc]
  · constructor
    · simp [ScanSessionManager.cleanupExpiredSessions, h, hc]
    · simp [ScanSessionManager.cleanupExpiredSessions, h, hc]

/-- Witness for c7_reaper_evicts_by_createdAt: an arbitrarily old running
session survives the sweep. -/
theorem c7_reaper_evicts_by_createdAt_witness :
    ((ScanSessionManager.cleanupExpiredSessions
        (ScanSessionManager.updateStatus
          (ScanSessionManager.createSession initialMgrState "s1" "10.0.0.5"
            "quick" "u1" 0).1
          "s1" .running)
        100000000).sessions "s1"
      = some { ScanSessionManager.freshSession "s1" "10.0.0.5" "quick" "u1" 0
                 with status := .running }) :=
  (c7_reaper_evicts_by_createdAt _ 100000000 "s1"
    { ScanSessionManager.freshSession "s1" "10.0.0.5" "quick" "u1" 0
        with status := .running }
    (by decide)).2.mpr (by decide)

/-- A status is either terminal or one of starting and running. -/
theorem nonterminal_cases (s : ScanStatus) (h1 : ¬ s = .done)
    (h2 : ¬ s = .error) : s = .starting ∨ s = .running := by
  cases s <;> simp_all

/-- Claim C5 counterexample: the invariant as claimed fails under the
claimed operation surface.  createSession then updateStatus with done (a
Session Store operation the claim quantifies over) yields a session whose
status is done while result and errorMessage are both null, because
updateStatus sets any status it is handed and touches no outcome field. -/
theorem c5_counterexample :
    (((runOps initialMgrState c5BadOps).sessions "s1").map ScanSession.status
      = some .done)
    ∧ (((runOps initialMgrState c5BadOps).sessions "s1").map ScanSession.result
      = some none)
    ∧ (((runOps initialMgrState c5BadOps).sessions "s1").map
        ScanSession.errorMessage = some none) := by
  decide

/-- One tame Session Store operation preserves the terminal-fields
invariant. -/
theorem applyOp_preserves_inv (st : MgrState) (op : StoreOp)
    (hInv : MgrInv st) (hTame : opTame st op = true) :
    MgrInv (applyOp st op) := by
  cases op with
  | createOp sid t p u now =>
    intro id s hs
    simp only [applyOp, ScanSessionManager.createSession,
      ScanSessionManager.setSession] at hs
    by_cases hid : id = sid
    · rw [if_pos hid] at hs
      cases hs
      exact ⟨fun _ => ⟨rfl, rfl⟩,
        fun h => by simp [ScanSessionManager.freshSession] at h,
        fun h => by simp [ScanSessionManager.freshSession] at h⟩
    · rw [if_neg hid] at hs
      exact hInv id s hs
  | updateStatusOp sid stNew =>
    intro id s hs
    simp only [applyOp, ScanSessionManager.updateStatus] at hs
    cases ho : st.sessions sid with
    | none => rw [ho] at hs; exact hInv id s hs
    | some old =>
      rw [ho] at hs
      simp only [ScanSessionManager.setSession] at hs
      by_cases hid : id = sid
      · rw [if_pos hid] at hs
        cases hs
        simp only [opTame, ho, Bool.and_eq_true, Bool.not_eq_true',
          Bool.or_eq_false_iff, decide_eq_false_iff_not] at hTame
        have hOld := hInv sid old ho
        have hOldFields := hOld.1 (nonterminal_cases old.status
          hTame.2.1 hTame.2.2)
        exact ⟨fun _ => hOldFields,
          fun h => absurd h hTame.1.1,
          fun h => absurd h hTame.1.2⟩
      · rw [if_neg hid] at hs
        exact hInv id s hs
  | addLogOp sid m =>
    intro id s hs
    simp only [applyOp, ScanSessionManager.addLog] at hs
    cases ho : st.sessions sid with
    | none => rw [ho] at hs; exact hInv id s hs
    | some old =>
      rw [ho] at hs
      simp only [ScanSessionManager.setSession] at hs
      by_cases hid : id = sid
      · rw [if_pos hid] at hs
        cases hs
        exact hInv sid old ho
      · rw [if_neg hid] at hs
        exact hInv id s hs
  | appendXmlOp sid c =>
    intro id s hs
    simp only [applyOp, ScanSessionManager.appendXmlOutput] at hs
    cases ho : st.sessions sid with
    | none => rw [ho] at hs; exact hInv id s hs
    | some old =>
      rw [ho] at hs
      simp only [ScanSessionManager.setSession] at hs
      by_cases hid : id = sid
      · rw [if_pos hid] at hs
        cases hs
        exact hInv sid old ho
      · rw [if_neg hid] at hs
        exact hInv id s hs
  | completeOp sid r =>
    intro id s hs
    simp only [applyOp, ScanSessionManager.completeScan] at hs
    cases ho : st.sessions sid with
    | none => rw [ho] at hs; exact hInv id s hs
    | some old =>
      rw [ho] at hs
      simp only [ScanSessionManager.setSession] at hs
      by_cases hid : id = sid
      · rw [if_pos hid] at hs
        cases hs
        exact ⟨fun h => by rcases h with h | h <;> simp at h,
          fun _ => ⟨rfl, rfl⟩, fun h => by simp at h⟩
      · rw [if_neg hid] at hs
        exact hInv id s hs
  | failOp sid m =>
    intro id s hs
    simp only [applyOp, ScanSessionManager.failScan] at hs
    cases ho : st.sessions sid with
    | none => rw [ho] at hs; exact hInv id s hs
    | some old =>
      rw [ho] at hs
      simp only [ScanSessionManager.setSession] at hs
      by_cases hid : id = sid
      · rw [if_pos hid] at hs
        cases hs
        exact ⟨fun h => by rcases h with h | h <;> simp at h,
          fun h => by simp at h, fun _ => ⟨rfl, rfl⟩⟩
      · rw [if_neg hid] at hs
        exact hInv id s hs

/-- Once the tameness flag is false it stays false. -/
theorem runOpsChecked_flag_false (rest : List StoreOp) :
    ∀ st0 : MgrState,
      (rest.foldl
        (fun acc op => (applyOp acc.1 op, acc.2 && opTame acc.1 op))
        (st0, false)).2 = false := by
  induction rest with
  | nil => intro st0; rfl
  | cons op rest ih =>
    intro st0
    simpa using ih (applyOp st0 op)

/-- The checked run preserves the invariant from any invariant-satisfying
start state. -/
theorem runOpsChecked_inv (ops : List StoreOp) :
    ∀ st : MgrState, MgrInv st → (runOpsChecked st ops).2 = true →
      MgrInv (runOpsChecked st ops).1 := by
  induction ops with
  | nil =>
    intro st hInv _
    simpa [runOpsChecked] using hInv
  | cons op rest ih =>
    intro st hInv hFlag
    by_cases hop : opTame st op = true
    · have heq : runOpsChecked st (op :: rest)
          = runOpsChecked (applyOp st op) rest := by
        simp [runOpsChecked, hop]
      rw [heq] at hFlag ⊢
      exact ih _ (applyOp_preserves_inv st op hInv hop) hFlag
    · exfalso
      have hfalse : (runOpsChecked st (op :: rest)).2 = false := by
        have : (true && opTame st op) = false := by
          simp [Bool.eq_false_iff.mpr hop]
        simpa [runOpsChecked, this] using
          runOpsChecked_flag_false rest (applyOp st op)
      rw [hfalse] at hFlag
      exact Bool.false_ne_true hFlag

/-- Claim C5 amended: for every session reachable from the empty registry by
a sequence of the listed Session Store operations in which every
updateStatus call carries a non-terminal status and targets a session that
is not already terminal (which is how the repository invokes it), the
terminal-fields invariant holds: exactly one of result and errorMessage is
non-null when status is done or error, and both are null when status is
starting or running. -/
theorem c5_terminal_fields_invariant (ops : List StoreOp)
    (h : (runOpsChecked initialMgrState ops).2 = true) :
    MgrInv (runOpsChecked initialMgrState ops).1 :=
  runOpsChecked_inv ops initialMgrState
    (fun _ s hs => by simp [initialMgrState] at hs) h

/-- Witness for c5_terminal_fields_invariant on a concrete tame run ending
in completeScan. -/
theorem c5_terminal_fields_invariant_witness :
    ((runOpsChecked initialMgrState c5GoodOps).2 = true)
    ∧ terminalFieldsOk
        { ScanSessionManager.freshSession "s1" "10.0.0.5" "quick" "u1" 0
            with status := .done, logs := ["hello"], xmlBuffer := "<xml>",
                 result := some emptyParsedResult } :=
  ⟨by decide,
   c5_terminal_fields_invariant c5GoodOps (by decide) "s1"
     { ScanSessionManager.freshSession "s1" "10.0.0.5" "quick" "u1" 0
         with status := .done, logs := ["hello"], xmlBuffer := "<xml>",
              result := some emptyParsedResult }
     (by decide)⟩

/-- After the handlers are unsubscribed no further event is written. -/
theorem handleEvent_foldl_unsub (scanId : String) (live : List SessionEvent) :
    ∀ fr : List Frame,
      live.foldl (handleEvent scanId) (fr, false) = (fr, false) := by
  induction live with
  | nil => intro fr; rfl
  | cons e rest ih =>
    intro fr
    have h1 : handleEvent scanId (fr, false) e = (fr, false) := by
      simp [handleEvent]
    rw [List.foldl_cons, h1]
    exact ih fr

/-- Closed form of the subscribed fold: the frames written for the live
events are exactly liveFrames, appended to what was already written. -/
theorem handleEvent_foldl (scanId : String) (live : List SessionEvent) :
    ∀ fr : List Frame,
      (live.foldl (handleEvent scanId) (fr, true)).1
        = fr ++ liveFrames scanId live := by
  induction live with
  | nil => intro fr; simp [liveFrames]
  | cons e rest ih =>
    intro fr
    rw [List.foldl_cons]
    cases e with
    | logEv sid m =>
      by_cases h : sid = scanId
      · have h1 : handleEvent scanId (fr, true) (.logEv sid m)
            = (fr ++ [.logF m], true) := by simp [handleEvent, h]
        rw [h1, ih]
        simp [liveFrames, SessionEvent.sid, h, isTerminalEv, eventFrame]
      · have h1 : handleEvent scanId (fr, true) (.logEv sid m) = (fr, true) := by
          simp [handleEvent, h]
        rw [h1, ih]
        simp [liveFrames, SessionEvent.sid, h]
    | statusEv sid stv =>
      by_cases h : sid = scanId
      · have h1 : handleEvent scanId (fr, true) (.statusEv sid stv)
            = (fr ++ [.statusF stv], true) := by simp [handleEvent, h]
        rw [h1, ih]
        simp [liveFrames, SessionEvent.sid, h, isTerminalEv, eventFrame]
      · have h1 : handleEvent scanId (fr, true) (.statusEv sid stv)
            = (fr, true) := by simp [handleEvent, h]
        rw [h1, ih]
        simp [liveFrames, SessionEvent.sid, h]
    | doneEv sid r =>
      by_cases h : sid = scanId
      · have h1 : handleEvent scanId (fr, true) (.doneEv sid r)
            = (fr ++ [.doneF r], false) := by simp [handleEvent, h]
        rw [h1, handleEvent_foldl_unsub scanId rest]
        simp [liveFrames, SessionEvent.sid, h, isTerminalEv, eventFrame]
      · have h1 : handleEvent scanId (fr, true) (.doneEv sid r)
            = (fr, true) := by simp [handleEvent, h]
        rw [h1, ih]
        simp [liveFrames, SessionEvent.sid, h]
    | errorEv sid m =>
      by_cases h : sid = scanId
      · have h1 : handleEvent scanId (fr, true) (.errorEv sid m)
            = (fr ++ [.errorF m], false) := by simp [handleEvent, h]
        rw [h1, handleEvent_foldl_unsub scanId rest]
        simp [liveFrames, SessionEvent.sid, h, isTerminalEv, eventFrame]
      · have h1 : handleEvent scanId (fr, true) (.errorEv sid m)
            = (fr, true) := by simp [handleEvent, h]
        rw [h1, ih]
        simp [liveFrames, SessionEvent.sid, h]

/-- When no terminal event of the session occurs among the live events,
every one of its live events is forwarded exactly once, in order. -/
theorem liveFrames_no_terminal (scanId : String) (live : List SessionEvent) :
    live.all (fun e => !(decide (e.sid = scanId) && isTerminalEv e)) = true →
    liveFrames scanId live
      = (live.filter (fun e => decide (e.sid = scanId))).map eventFrame := by
  induction live with
  | nil => intro _; rfl
  | cons e rest ih =>
    intro h
    rw [List.all_cons, Bool.and_eq_true] at h
    obtain ⟨ha, hrest⟩ := h
    by_cases hsid : e.sid = scanId
    · have h1 : (decide (e.sid = scanId) && isTerminalEv e) = false := by
        cases hb : (decide (e.sid = scanId) && isTerminalEv e) with
        | false => rfl
        | true => rw [hb] at ha; simp at ha
      have hterm : isTerminalEv e = false := by
        rcases Bool.and_eq_false_iff.mp h1 with h' | h'
        · exact absurd hsid (of_decide_eq_false h')
        · exact h'
      rw [liveFrames, if_pos hsid, if_neg (by simp [hterm])]
      rw [List.filter_cons_of_pos (by simpa using hsid), List.map_cons]
      rw [ih hrest]
    · rw [liveFrames, if_neg hsid]
      rw [List.filter_cons_of_neg (by simpa using hsid)]
      exact ih hrest

/-- Claim C9: a client connecting to the streaming endpoint for an existing
owned session receives the connected frame first, then exactly the buffered
log lines in original order, then every subsequently emitted live event of
the session as its typed frame up to and including the first done or error
event; when no terminal event occurs among the live events, each of the
live events of the session is forwarded exactly once, so nothing buffered
or live is omitted or duplicated. -/
theorem c9_stream_replay_then_live (st : MgrState) (userId scanId : String)
    (live : List SessionEvent) (session : ScanSession)
    (hs : st.sessions scanId = some session)
    (hown : session.userId = userId) :
    (streamScanLogs st (some userId) scanId live
      = .streamed ([Frame.connectedF scanId session.status]
          ++ session.logs.map Frame.logF ++ liveFrames scanId live))
    ∧ (live.all (fun e => !(decide (e.sid = scanId) && isTerminalEv e)) = true →
        liveFrames scanId live
          = (live.filter (fun e => decide (e.sid = scanId))).map eventFrame) := by
  refine ⟨?_, liveFrames_no_terminal scanId live⟩
  simp only [streamScanLogs, hs]
  rw [if_neg (by simp [hown])]
  congr 1
  rw [handleEvent_foldl]

/-- Witness for c9_stream_replay_then_live: two buffered lines, then a live
line, an unrelated session event, and the done event. -/
theorem c9_stream_replay_then_live_witness :
    streamScanLogs c9State (some "u1") "s1" c9Live
      = .streamed [.connectedF "s1" .starting, .logF "l1", .logF "l2",
          .logF "l3", .doneF emptyParsedResult] := by
  have h := (c9_stream_replay_then_live c9State "u1" "s1" c9Live c9Session
    (by decide) (by decide)).1
  rw [h]
  decide

/-! Characterization of the events and registry entries each Session Store
operation produces. -/

/-- addLog emits exactly one log event when the session exists, none
otherwise. -/
theorem addLog_events (st : MgrState) (sid m : String) :
    (ScanSessionManager.addLog st sid m).events
      = st.events ++ (if (st.sessions sid).isSome then [.logEv sid m] else []) := by
  cases ho : st.sessions sid <;> simp [ScanSessionManager.addLog, ho]

/-- appendXmlOutput emits no event. -/
theorem appendXmlOutput_events (st : MgrState) (sid c : String) :
    (ScanSessionManager.appendXmlOutput st sid c).events = st.events := by
  cases ho : st.sessions sid <;> simp [ScanSessionManager.appendXmlOutput, ho]

/-- updateStatus emits exactly one status event carrying its argument when
the session exists, none otherwise. -/
theorem updateStatus_events (st : MgrState) (sid : String) (s : ScanStatus) :
    (ScanSessionManager.updateStatus st sid s).events
      = st.events ++ (if (st.sessions sid).isSome then [.statusEv sid s] else []) := by
  cases ho : st.sessions sid <;> simp [ScanSessionManager.updateStatus, ho]

/-- completeScan emits exactly one done event when the session exists and no
status event, although it sets the status to done. -/
theorem completeScan_events (st : MgrState) (sid : String)
    (r : ParsedNmapResult) :
    (ScanSessionManager.completeScan st sid r).events
      = st.events ++ (if (st.sessions sid).isSome then [.doneEv sid r] else []) := by
  cases ho : st.sessions sid <;> simp [ScanSessionManager.completeScan, ho]

/-- failScan emits exactly one error event when the session exists and no
status event, although it sets the status to error. -/
theorem failScan_events (st : MgrState) (sid m : String) :
    (ScanSessionManager.failScan st sid m).events
      = st.events ++ (if (st.sessions sid).isSome then [.errorEv sid m] else []) := by
  cases ho : st.sessions sid <;> simp [ScanSessionManager.failScan, ho]

/-- createSession emits exactly one status event carrying starting. -/
theorem createSession_events (st : MgrState) (sid t p u : String) (now : Int) :
    (ScanSessionManager.createSession st sid t p u now).1.events
      = st.events ++ [.statusEv sid .starting] := rfl

/-- updateStatus rewrites exactly the status of a present session. -/
theorem updateStatus_lookup (st : MgrState) (sid : String) (s0 : ScanSession)
    (status : ScanStatus) (h : st.sessions sid = some s0) :
    (ScanSessionManager.updateStatus st sid status).sessions sid
      = some { s0 with status := status } := by
  simp [ScanSessionManager.updateStatus, h, ScanSessionManager.setSession]

/-- completeScan rewrites a present session to done with the result set. -/
theorem completeScan_lookup (st : MgrState) (sid : String) (s0 : ScanSession)
    (r : ParsedNmapResult) (h : st.sessions sid = some s0) :
    (ScanSessionManager.completeScan st sid r).sessions sid
      = some { s0 with status := .done, result := some r,
                       errorMessage := none } := by
  simp [ScanSessionManager.completeScan, h, ScanSessionManager.setSession]

/-- failScan rewrites a present session to error with the message set. -/
theorem failScan_lookup (st : MgrState) (sid m : String) (s0 : ScanSession)
    (h : st.sessions sid = some s0) :
    (ScanSessionManager.failScan st sid m).sessions sid
      = some { s0 with status := .error, errorMessage := some m,
                       result := none } := by
  simp [ScanSessionManager.failScan, h, ScanSessionManager.setSession]

/-- addLog keeps a present session present. -/
theorem addLog_present (st : MgrState) (sid m id : String)
    (h : (st.sessions id).isSome = true) :
    ((ScanSessionManager.addLog st sid m).sessions id).isSome = true := by
  cases ho : st.sessions sid with
  | none => simpa [ScanSessionManager.addLog, ho] using h
  | some s0 =>
    by_cases hid : id = sid
    · subst hid
      simp [ScanSessionManager.addLog, ho, ScanSessionManager.setSession]
    · simpa [ScanSessionManager.addLog, ho, ScanSessionManager.setSession,
        hid] using h

/-- appendXmlOutput keeps a present session present. -/
theorem appendXmlOutput_present (st : MgrState) (sid c id : String)
    (h : (st.sessions id).isSome = true) :
    ((ScanSessionManager.appendXmlOutput st sid c).sessions id).isSome
      = true := by
  cases ho : st.sessions sid with
  | none => simpa [ScanSessionManager.appendXmlOutput, ho] using h
  | some s0 =>
    by_cases hid : id = sid
    · subst hid
      simp [ScanSessionManager.appendXmlOutput, ho,
        ScanSessionManager.setSession]
    · simpa [ScanSessionManager.appendXmlOutput, ho,
        ScanSessionManager.setSession, hid] using h

/-- A fold of presence-preserving steps keeps a present session present. -/
theorem foldl_present {α : Type} (f : MgrState → α → MgrState)
    (hf : ∀ st a id, (st.sessions id).isSome = true →
      ((f st a).sessions id).isSome = true) (l : List α) :
    ∀ (st : MgrState) (id : String), (st.sessions id).isSome = true →
      (((l.foldl f st).sessions id).isSome = true) := by
  induction l with
  | nil => intro st id h; simpa using h
  | cons a rest ih =>
    intro st id h
    rw [List.foldl_cons]
    exact ih (f st a) id (hf st a id h)

/-- The stderr line splitter keeps a present session present. -/
theorem processStderrChunk_present (st : MgrState) (sid chunk id : String)
    (h : (st.sessions id).isSome = true) :
    ((processStderrChunk st sid chunk).sessions id).isSome = true := by
  unfold processStderrChunk
  refine foldl_present _ ?_ _ st id h
  intro st2 line id2 h2
  by_cases hl : jsTrim line ≠ ""
  · simpa [hl] using addLog_present st2 sid (jsTrim line) id2 h2
  · simpa [hl] using h2

/-- Draining both streams keeps a present session present. -/
theorem drainStreams_present (st : MgrState) (sid : String)
    (proc : ProcBehavior) (id : String)
    (h : (st.sessions id).isSome = true) :
    ((drainStreams st sid proc).sessions id).isSome = true := by
  unfold drainStreams
  refine foldl_present _ ?_ _ _ id
    (foldl_present _ ?_ _ st id h)
  · intro st2 c id2 h2
    exact processStderrChunk_present st2 sid c id2 h2
  · intro st2 c id2 h2
    exact appendXmlOutput_present st2 sid c id2 h2

/-! EventsExt machinery: each operation only appends events of known kinds. -/

/-- EventsExt is reflexive. -/
theorem eventsExt_refl (p : SessionEvent → Bool) (st : MgrState) :
    EventsExt p st st := fun e he => Or.inl he

/-- EventsExt is transitive. -/
theorem eventsExt_trans {p : SessionEvent → Bool} {a b c : MgrState}
    (h1 : EventsExt p a b) (h2 : EventsExt p b c) : EventsExt p a c := by
  intro e he
  rcases h2 e he with h | h
  · exact h1 e h
  · exact Or.inr h

/-- Event lists that only grow by an optional p-event give EventsExt. -/
theorem eventsExt_of_append (p : SessionEvent → Bool) (st st2 : MgrState)
    (tail : List SessionEvent) (h : st2.events = st.events ++ tail)
    (hp : ∀ e ∈ tail, p e = true) : EventsExt p st st2 := by
  intro e he
  rw [h, List.mem_append] at he
  rcases he with h1 | h1
  · exact Or.inl h1
  · exact Or.inr (hp e h1)

/-- addLog only appends a log event. -/
theorem eventsExt_addLog (p : SessionEvent → Bool)
    (hp : ∀ sid m, p (.logEv sid m) = true) (st : MgrState) (sid m : String) :
    EventsExt p st (ScanSessionManager.addLog st sid m) := by
  refine eventsExt_of_append p st _ _ (addLog_events st sid m) ?_
  intro e he
  split at he
  · rcases List.mem_singleton.mp he with rfl
    exact hp sid m
  · simp at he

/-- appendXmlOutput appends no event. -/
theorem eventsExt_appendXmlOutput (p : SessionEvent → Bool) (st : MgrState)
    (sid c : String) :
    EventsExt p st (ScanSessionManager.appendXmlOutput st sid c) := by
  refine eventsExt_of_append p st _ [] ?_ (by simp)
  simpa using appendXmlOutput_events st sid c

/-- updateStatus only appends a status event carrying its argument. -/
theorem eventsExt_updateStatus (p : SessionEvent → Bool) (st : MgrState)
    (sid : String) (status : ScanStatus)
    (hp : ∀ sid2, p (.statusEv sid2 status) = true) :
    EventsExt p st (ScanSessionManager.updateStatus st sid status) := by
  refine eventsExt_of_append p st _ _ (updateStatus_events st sid status) ?_
  intro e he
  split at he
  · rcases List.mem_singleton.mp he with rfl
    exact hp sid
  · simp at he

/-- completeScan only appends a done event. -/
theorem eventsExt_completeScan (p : SessionEvent → Bool)
    (hp : ∀ sid r, p (.doneEv sid r) = true) (st : MgrState) (sid : String)
    (r : ParsedNmapResult) :
    EventsExt p st (ScanSessionManager.completeScan st sid r) := by
  refine eventsExt_of_append p st _ _ (completeScan_events st sid r) ?_
  intro e he
  split at he
  · rcases List.mem_singleton.mp he with rfl
    exact hp sid r
  · simp at he

/-- failScan only appends an error event. -/
theorem eventsExt_failScan (p : SessionEvent → Bool)
    (hp : ∀ sid m, p (.errorEv sid m) = true) (st : MgrState) (sid m : String) :
    EventsExt p st (ScanSessionManager.failScan st sid m) := by
  refine eventsExt_of_append p st _ _ (failScan_events st sid m) ?_
  intro e he
  split at he
  · rcases List.mem_singleton.mp he with rfl
    exact hp sid m
  · simp at he

/-- createSession only appends a starting status event. -/
theorem eventsExt_createSession (p : SessionEvent → Bool) (st : MgrState)
    (sid t pr u : String) (now : Int)
    (hp : p (.statusEv sid .starting) = true) :
    EventsExt p st (ScanSessionManager.createSession st sid t pr u now).1 := by
  refine eventsExt_of_append p st _ _ (createSession_events st sid t pr u now) ?_
  intro e he
  rcases List.mem_singleton.mp he with rfl
  exact hp

/-- A fold of EventsExt steps is EventsExt. -/
theorem eventsExt_foldl {α : Type} (p : SessionEvent → Bool)
    (f : MgrState → α → MgrState)
    (hf : ∀ st a, EventsExt p st (f st a)) (l : List α) :
    ∀ st : MgrState, EventsExt p st (l.foldl f st) := by
  induction l with
  | nil => intro st; exact eventsExt_refl p st
  | cons a rest ih =>
    intro st
    exact eventsExt_trans (hf st a) (ih (f st a))

/-- The stderr line splitter only appends log events. -/
theorem eventsExt_processStderrChunk (p : SessionEvent → Bool)
    (hp : ∀ sid m, p (.logEv sid m) = true) (st : MgrState)
    (sid chunk : String) :
    EventsExt p st (processStderrChunk st sid chunk) := by
  unfold processStderrChunk
  refine eventsExt_foldl p _ ?_ _ st
  intro st2 line
  by_cases hl : jsTrim line ≠ ""
  · simpa [hl] using eventsExt_addLog p hp st2 sid (jsTrim line)
  · simpa [hl] using eventsExt_refl p st2

/-- Draining both streams only appends log events. -/
theorem eventsExt_drainStreams (p : SessionEvent → Bool)
    (hp : ∀ sid m, p (.logEv sid m) = true) (st : MgrState) (sid : String)
    (proc : ProcBehavior) :
    EventsExt p st (drainStreams st sid proc) := by
  unfold drainStreams
  refine eventsExt_trans
    (eventsExt_foldl p _ (fun st2 c => eventsExt_appendXmlOutput p st2 sid c)
      proc.stdoutChunks st)
    (eventsExt_foldl p _
      (fun st2 c => eventsExt_processStderrChunk p hp st2 sid c)
      proc.stderrChunks _)

/-- The streaming runner only appends log and error events. -/
theorem eventsExt_runNmap (p : SessionEvent → Bool)
    (hplog : ∀ sid m, p (.logEv sid m) = true)
    (hperr : ∀ sid m, p (.errorEv sid m) = true) (isWin32 : Bool)
    (args : List String) (timeoutMs : Nat) (sessionId : String)
    (st : MgrState) (proc : ProcBehavior) :
    EventsExt p st
      (runNmapCommandWithStreaming isWin32 args timeoutMs sessionId st
        proc).2.1 := by
  obtain ⟨so, se, ending⟩ := proc
  cases ending with
  | spawnErrorEvt msg =>
    by_cases hj : jsIncludes msg "spawn nmap" = true
    · simp only [runNmapCommandWithStreaming, hj]
      exact eventsExt_refl p st
    · simp only [runNmapCommandWithStreaming, hj]
      exact eventsExt_refl p st
  | closesAt t code =>
    by_cases ht : t ≤ timeoutMs
    · simp only [runNmapCommandWithStreaming, if_pos ht]
      exact eventsExt_drainStreams p hplog st sessionId _
    · simp only [runNmapCommandWithStreaming, if_neg ht]
      exact eventsExt_drainStreams p hplog st sessionId _
  | runsForever =>
    simp only [runNmapCommandWithStreaming]
    exact eventsExt_drainStreams p hplog st sessionId _

/-- The streaming service only appends log and error events. -/
theorem eventsExt_executeScanWithStreaming (p : SessionEvent → Bool)
    (hplog : ∀ sid m, p (.logEv sid m) = true)
    (hperr : ∀ sid m, p (.errorEv sid m) = true) (isWin32 : Bool)
    (validator : ScanConfig → List ValidationError) (scanConfig : ScanConfig)
    (sessionId : String) (st : MgrState) (proc : ProcBehavior) :
    EventsExt p st
      (executeScanWithStreaming isWin32 validator scanConfig sessionId st
        proc).2.1 := by
  simp only [executeScanWithStreaming]
  split
  · exact eventsExt_failScan p hperr st sessionId _
  · split
    · exact eventsExt_failScan p hperr st sessionId _
    · rcases hr : runNmapCommandWithStreaming isWin32
          (buildNmapArgs scanConfig)
          (scanConfig.hostTimeoutSeconds * 1000 + 30000) sessionId st proc
        with ⟨res, st1, call⟩
      have hext : EventsExt p st st1 := by
        have := eventsExt_runNmap p hplog hperr isWin32
          (buildNmapArgs scanConfig)
          (scanConfig.hostTimeoutSeconds * 1000 + 30000) sessionId st proc
        rw [hr] at this
        exact this
      cases res with
      | ok r => exact hext
      | error e =>
        exact eventsExt_trans hext (eventsExt_failScan p hperr st1 sessionId _)

/-! Evaluation lemmas for the Process Runner and service layer. -/

/-- The runner spawns with the given argument list, no shell, windowsHide
and the given timeout option, whatever the subprocess then does. -/
theorem runNmap_spawnCall (isWin32 : Bool) (args : List String)
    (timeoutMs : Nat) (sessionId : String) (st : MgrState)
    (proc : ProcBehavior) :
    (runNmapCommandWithStreaming isWin32 args timeoutMs sessionId st
        proc).2.2
      = { cmd := nmapExecutable isWin32, args := args, shell := false,
          windowsHide := true, timeoutOpt := some timeoutMs } := by
  obtain ⟨so, se, ending⟩ := proc
  cases ending with
  | spawnErrorEvt msg =>
    by_cases hj : jsIncludes msg "spawn nmap" = true <;>
      simp [runNmapCommandWithStreaming, hj]
  | closesAt t code =>
    by_cases ht : t ≤ timeoutMs <;> simp [runNmapCommandWithStreaming, ht]
  | runsForever => simp [runNmapCommandWithStreaming]

/-- When validation passes, the service makes exactly one spawn call: the
executable for the platform, the builder argument list verbatim, no shell,
and the total timeout armed for hostTimeoutSeconds * 1000 + 30000. -/
theorem executeScanWithStreaming_spawnCall (isWin32 : Bool)
    (validator : ScanConfig → List ValidationError) (scanConfig : ScanConfig)
    (sessionId : String) (st : MgrState) (proc : ProcBehavior)
    (hv : ¬ (validator scanConfig).length > 0)
    (hg : validateGeneratedArgs (buildNmapArgs scanConfig) = true) :
    (executeScanWithStreaming isWin32 validator scanConfig sessionId st
        proc).2.2
      = some { cmd := nmapExecutable isWin32,
               args := buildNmapArgs scanConfig, shell := false,
               windowsHide := true,
               timeoutOpt := some (scanConfig.hostTimeoutSeconds * 1000 + 30000) } := by
  simp only [executeScanWithStreaming]
  rw [if_neg hv, if_neg (by simp [hg])]
  rcases hr : runNmapCommandWithStreaming isWin32 (buildNmapArgs scanConfig)
      (scanConfig.hostTimeoutSeconds * 1000 + 30000) sessionId st proc
    with ⟨res, st1, call⟩
  have hc := runNmap_spawnCall isWin32 (buildNmapArgs scanConfig)
    (scanConfig.hostTimeoutSeconds * 1000 + 30000) sessionId st proc
  rw [hr] at hc
  cases res with
  | ok r => simpa using hc
  | error e => simpa using hc

/-- Normal exit at or before the armed timeout: the promise resolves with
the accumulated output, the Session Store saw only the stream drains, and
the spawn call is as armed. -/
theorem executeScanWithStreaming_ok (isWin32 : Bool)
    (validator : ScanConfig → List ValidationError) (scanConfig : ScanConfig)
    (sessionId : String) (st : MgrState) (proc : ProcBehavior) (t : Nat)
    (code : Option Int)
    (hv : ¬ (validator scanConfig).length > 0)
    (hg : validateGeneratedArgs (buildNmapArgs scanConfig) = true)
    (he : proc.ending = .closesAt t code)
    (ht : t ≤ scanConfig.hostTimeoutSeconds * 1000 + 30000) :
    executeScanWithStreaming isWin32 validator scanConfig sessionId st proc
      = (.ok { stdout := String.join proc.stdoutChunks,
               stderr := String.join proc.stderrChunks,
               exitCode := code, duration := 0 },
         drainStreams st sessionId proc,
         some { cmd := nmapExecutable isWin32,
                args := buildNmapArgs scanConfig, shell := false,
                windowsHide := true,
                timeoutOpt := some (scanConfig.hostTimeoutSeconds * 1000 + 30000) }) := by
  have hrun : runNmapCommandWithStreaming isWin32 (buildNmapArgs scanConfig)
      (scanConfig.hostTimeoutSeconds * 1000 + 30000) sessionId st proc
      = (.ok { stdout := String.join proc.stdoutChunks,
               stderr := String.join proc.stderrChunks,
               exitCode := code, duration := 0 },
         drainStreams st sessionId proc,
         { cmd := nmapExecutable isWin32, args := buildNmapArgs scanConfig,
           shell := false, windowsHide := true,
           timeoutOpt := some (scanConfig.hostTimeoutSeconds * 1000 + 30000) }) := by
    simp only [runNmapCommandWithStreaming, he]
    rw [if_pos ht]
  simp only [executeScanWithStreaming]
  rw [if_neg hv, if_neg (by simp [hg]), hrun]

/-- Claim C1: whenever the streaming Process Runner reaches the spawn
primitive, the call carries the executable name for the platform and
exactly the argument array the Argument Builder produced, as a verbatim
array of separate arguments; the shell option is false (the options object
passed to spawn carries only windowsHide and timeout), so no argument is
concatenated into a shell command line. -/
theorem c1_spawn_uses_builder_args_verbatim (isWin32 : Bool)
    (validator : ScanConfig → List ValidationError) (scanConfig : ScanConfig)
    (sessionId : String) (st : MgrState) (proc : ProcBehavior)
    (call : SpawnCall)
    (h : (executeScanWithStreaming isWin32 validator scanConfig sessionId st
        proc).2.2 = some call) :
    call.cmd = nmapExecutable isWin32
    ∧ call.args = buildNmapArgs scanConfig
    ∧ call.shell = false := by
  by_cases hv : (validator scanConfig).length > 0
  · exfalso
    simp only [executeScanWithStreaming] at h
    rw [if_pos hv] at h
    simp at h
  · by_cases hg : validateGeneratedArgs (buildNmapArgs scanConfig) = true
    · have h2 := executeScanWithStreaming_spawnCall isWin32 validator
        scanConfig sessionId st proc hv hg
      rw [h] at h2
      have h3 := Option.some.inj h2
      rw [h3]
      exact ⟨rfl, rfl, rfl⟩
    · exfalso
      simp only [executeScanWithStreaming] at h
      rw [if_neg hv, if_pos hg] at h
      simp at h

/-- Witness for c1_spawn_uses_builder_args_verbatim on a concrete custom
configuration. -/
theorem c1_spawn_uses_builder_args_verbatim_witness :
    ((executeScanWithStreaming false acceptAll sampleScanConfig "s1"
        initialMgrState sampleProc).2.2 = some c1SampleCall)
    ∧ (c1SampleCall.cmd = nmapExecutable false
       ∧ c1SampleCall.args = buildNmapArgs sampleScanConfig
       ∧ c1SampleCall.shell = false) :=
  ⟨by decide,
   c1_spawn_uses_builder_args_verbatim false acceptAll sampleScanConfig "s1"
     initialMgrState sampleProc c1SampleCall (by decide)⟩

/-- Claim C2 counterexample: a scan whose subprocess exits with EMPTY
structured output (the parse-failure case of the claim) does not transition
the session to error.  The parser absorbs the failure and returns the empty
default result, the Finalizer calls completeScan, and the session ends in
status done carrying the empty result; no error event is ever emitted. -/
theorem c2_counterexample :
    ((c2Flow.mgr.sessions "scan1").map ScanSession.status = some .done)
    ∧ ((c2Flow.mgr.sessions "scan1").map ScanSession.result
        = some (some emptyParsedResult))
    ∧ ((c2Flow.mgr.sessions "scan1").map ScanSession.errorMessage = some none)
    ∧ (c2Flow.mgr.events.all (fun e => !(isErrorEv e)) = true) := by
  decide

/-- Claim C2 amended: a parse failure never escalates.  For every standard
scan whose subprocess exits normally with structured output that is blank
or on which the underlying XML parse fails, NmapXmlParser.parse returns the
empty default result (no exception escapes the parser, so the catch at the
Finalizer boundary never sees a parse failure), the Finalizer invokes
completeScan, and the session transitions to done with the empty default
result, not to error. -/
theorem c2_parse_failure_completes_done (isWin32 : Bool)
    (validator : ScanConfig → List ValidationError)
    (inner : String → Except String ParsedNmapResult)
    (target profile userId scanId : String) (now : Int) (st : MgrState)
    (proc : ProcBehavior) (t : Nat) (code : Option Int)
    (hv : ¬ (validator (standardScanConfig target profile)).length > 0)
    (hg : validateGeneratedArgs
      (buildNmapArgs (standardScanConfig target profile)) = true)
    (he : proc.ending = .closesAt t code)
    (ht : t ≤ 630000)
    (hfail : jsTrim (String.join proc.stdoutChunks) = ""
      ∨ ∃ msg, inner (String.join proc.stdoutChunks) = .error msg) :
    ∃ s, (fullStandardScan isWin32 validator inner true target profile userId
        scanId now st proc).mgr.sessions scanId = some s
      ∧ s.status = .done ∧ s.result = some emptyParsedResult
      ∧ s.errorMessage = none := by
  have hparse : NmapXmlParser.parse inner (String.join proc.stdoutChunks)
      = emptyParsedResult := by
    rcases hfail with h | ⟨msg, h⟩
    · simp [NmapXmlParser.parse, h]
    · by_cases hb : jsTrim (String.join proc.stdoutChunks) = ""
      · simp [NmapXmlParser.parse, hb]
      · simp [NmapXmlParser.parse, hb, h]
  have ht2 : t ≤ (standardScanConfig target profile).hostTimeoutSeconds * 1000
      + 30000 := by
    have : (standardScanConfig target profile).hostTimeoutSeconds = 600 := rfl
    rw [this]
    omega
  have hsvc := executeScanWithStreaming_ok isWin32 validator
    (standardScanConfig target profile) scanId
    (ScanSessionManager.updateStatus
      (ScanSessionManager.createSession st scanId target profile userId
        now).1 scanId .running)
    proc t code hv hg he ht2
  have h1 : (ScanSessionManager.createSession st scanId target profile userId
      now).1.sessions scanId
      = some (ScanSessionManager.freshSession scanId target profile userId
          now) := by
    simp [ScanSessionManager.createSession, ScanSessionManager.setSession]
  have h2 := updateStatus_lookup _ scanId _ ScanStatus.running h1
  have h3 : ((drainStreams
      (ScanSessionManager.updateStatus
        (ScanSessionManager.createSession st scanId target profile userId
          now).1 scanId .running)
      scanId proc).sessions scanId).isSome = true := by
    refine drainStreams_present _ scanId proc scanId ?_
    rw [h2]
    rfl
  rw [Option.isSome_iff_exists] at h3
  obtain ⟨s3, hs3⟩ := h3
  have hfinal : (ScanSessionManager.completeScan
      (drainStreams
        (ScanSessionManager.updateStatus
          (ScanSessionManager.createSession st scanId target profile userId
            now).1 scanId .running)
        scanId proc)
      scanId
      (NmapXmlParser.parse inner (String.join proc.stdoutChunks))).sessions
        scanId
      = some { s3 with status := .done, result := some emptyParsedResult,
                       errorMessage := none } := by
    rw [hparse]
    exact completeScan_lookup _ scanId s3 emptyParsedResult hs3
  have hflow : (fullStandardScan isWin32 validator inner true target profile
      userId scanId now st proc).mgr.sessions scanId
      = some { s3 with status := .done, result := some emptyParsedResult,
                       errorMessage := none } := by
    simp only [fullStandardScan, executeScanInBackground]
    rw [if_neg (by simp)]
    rw [hsvc]
    exact hfinal
  exact ⟨_, hflow, rfl, rfl, rfl⟩

/-- Witness for c2_parse_failure_completes_done at the concrete
empty-output run. -/
theorem c2_parse_failure_completes_done_witness :
    ∃ s, (fullStandardScan false acceptAll failingInner true "10.0.0.5"
        "quick" "u1" "scan1" 0 initialMgrState c2Proc).mgr.sessions "scan1"
        = some s
      ∧ s.status = .done ∧ s.result = some emptyParsedResult
      ∧ s.errorMessage = none :=
  c2_parse_failure_completes_done false acceptAll failingInner "10.0.0.5"
    "quick" "u1" "scan1" 0 initialMgrState c2Proc 1000 (some 0)
    (by decide) (by decide) rfl (by decide) (Or.inl (by decide))

/-- Claim C3: on the custom-builder path the Finalizer never invokes
completeScan.  A custom scan whose subprocess exits successfully leaves the
session in its non-terminal starting status, no done or error event is
emitted (so subscribers never receive a terminal event), while the
persisted record is written as completed: the code contradicts both the
claimed behavior and its own persisted state. -/
theorem c3_custom_path_never_completes :
    ((c3Flow.mgr.sessions "scan2").map ScanSession.status = some .starting)
    ∧ (c3Flow.mgr.events.all
        (fun e => !(isDoneEv e) && !(isErrorEv e)) = true)
    ∧ (c3Flow.dbStatuses = ["running", "completed"]) := by
  decide

/-- Claim C8 (code bug): the timeout protection never produces the claimed
error path.  The spawn timeout option and the manual timer are both armed
for hostTimeoutSeconds * 1000 + 30000 milliseconds, but the spawn-option
timer (registered first inside spawn) kills the child and sets the killed
flag before the manual timer fires, so the manual failScan-and-reject
branch - which constructs exactly the claimed behavior - is dead code.
Concretely, under the sample configuration (30 second host timeout) with a
subprocess that never exits on its own: the timer is armed for 60000 ms
(conjunct two), yet the completion future RESOLVES with exit code null
instead of rejecting with a timeout error (conjunct one), and on the
standard flow the Finalizer parses the empty partial buffer and completes
the session: status done, no errorMessage, and no error event ever emitted
(conjuncts three to five), where the claim and spec section 7 require
status error with a message naming the configured duration. -/
theorem c8_timeout_resolves_done :
    ((executeScanWithStreaming false acceptAll sampleScanConfig "s1" c8State
        c8HangingProc).1.toOption
      = some { stdout := "", stderr := "", exitCode := none, duration := 0 })
    ∧ ((executeScanWithStreaming false acceptAll sampleScanConfig "s1"
        c8State c8HangingProc).2.2
      = some { cmd := "nmap", args := buildNmapArgs sampleScanConfig,
               shell := false, windowsHide := true,
               timeoutOpt := some 60000 })
    ∧ ((c8KilledFlow.mgr.sessions "scan8").map ScanSession.status
        = some .done)
    ∧ ((c8KilledFlow.mgr.sessions "scan8").map ScanSession.errorMessage
        = some none)
    ∧ (c8KilledFlow.mgr.events.all (fun e => !(isErrorEv e)) = true) := by
  decide

/-- The standard-path Finalizer appends only log, error, done and
running-status events. -/
theorem eventsExt_executeScanInBackground (p : SessionEvent → Bool)
    (hplog : ∀ sid m, p (.logEv sid m) = true)
    (hperr : ∀ sid m, p (.errorEv sid m) = true)
    (hpdone : ∀ sid r, p (.doneEv sid r) = true)
    (hprun : ∀ sid, p (.statusEv sid .running) = true)
    (isWin32 : Bool) (validator : ScanConfig → List ValidationError)
    (inner : String → Except String ParsedNmapResult) (scanExists : Bool)
    (scanTarget scanProfile : String) (st : MgrState)
    (scanId sessionId : String) (proc : ProcBehavior) :
    EventsExt p st
      (executeScanInBackground isWin32 validator inner scanExists scanTarget
        scanProfile st scanId sessionId proc).mgr := by
  cases scanExists with
  | false => exact eventsExt_refl p st
  | true =>
    have e1 : EventsExt p st
        (ScanSessionManager.updateStatus st sessionId .running) :=
      eventsExt_updateStatus p st sessionId .running hprun
    simp only [executeScanInBackground]
    rw [if_neg (by simp)]
    rcases hr : executeScanWithStreaming isWin32 validator
        (standardScanConfig scanTarget scanProfile) scanId
        (ScanSessionManager.updateStatus st sessionId .running) proc
      with ⟨res, st2, call⟩
    have e2 : EventsExt p
        (ScanSessionManager.updateStatus st sessionId .running) st2 := by
      have := eventsExt_executeScanWithStreaming p hplog hperr isWin32
        validator (standardScanConfig scanTarget scanProfile) scanId
        (ScanSessionManager.updateStatus st sessionId .running) proc
      rw [hr] at this
      exact this
    cases res with
    | ok r =>
      exact eventsExt_trans (eventsExt_trans e1 e2)
        (eventsExt_completeScan p hpdone st2 sessionId _)
    | error e => exact eventsExt_trans e1 e2

/-- The custom-path Finalizer appends only log and error events. -/
theorem eventsExt_executeCustomScanWithStreaming (p : SessionEvent → Bool)
    (hplog : ∀ sid m, p (.logEv sid m) = true)
    (hperr : ∀ sid m, p (.errorEv sid m) = true)
    (isWin32 : Bool) (validator : ScanConfig → List ValidationError)
    (inner : String → Except String ParsedNmapResult) (scanExists : Bool)
    (scanConfig : ScanConfig) (st : MgrState) (scanId : String)
    (proc : ProcBehavior) :
    EventsExt p st
      (executeCustomScanWithStreaming isWin32 validator inner scanExists
        scanConfig st scanId proc).mgr := by
  cases scanExists with
  | false => exact eventsExt_refl p st
  | true =>
    simp only [executeCustomScanWithStreaming]
    rw [if_neg (by simp)]
    rcases hr : executeScanWithStreaming isWin32 validator scanConfig scanId
        st proc with ⟨res, st2, call⟩
    have e2 : EventsExt p st st2 := by
      have := eventsExt_executeScanWithStreaming p hplog hperr isWin32
        validator scanConfig scanId st proc
      rw [hr] at this
      exact this
    cases res with
    | ok r => exact e2
    | error e => exact e2

/-- The whole standard scan flow appends only log, error, done,
starting-status and running-status events. -/
theorem eventsExt_fullStandardScan (p : SessionEvent → Bool)
    (hplog : ∀ sid m, p (.logEv sid m) = true)
    (hperr : ∀ sid m, p (.errorEv sid m) = true)
    (hpdone : ∀ sid r, p (.doneEv sid r) = true)
    (hprun : ∀ sid, p (.statusEv sid .running) = true)
    (hpstart : ∀ sid, p (.statusEv sid .starting) = true)
    (isWin32 : Bool) (validator : ScanConfig → List ValidationError)
    (inner : String → Except String ParsedNmapResult) (scanExists : Bool)
    (target profile userId scanId : String) (now : Int) (st : MgrState)
    (proc : ProcBehavior) :
    EventsExt p st
      (fullStandardScan isWin32 validator inner scanExists target profile
        userId scanId now st proc).mgr :=
  eventsExt_trans
    (eventsExt_createSession p st scanId target profile userId now
      (hpstart scanId))
    (eventsExt_executeScanInBackground p hplog hperr hpdone hprun isWin32
      validator inner scanExists target profile _ scanId scanId proc)

/-- The whole custom scan flow appends only log, error and starting-status
events. -/
theorem eventsExt_fullCustomScan (p : SessionEvent → Bool)
    (hplog : ∀ sid m, p (.logEv sid m) = true)
    (hperr : ∀ sid m, p (.errorEv sid m) = true)
    (hpstart : ∀ sid, p (.statusEv sid .starting) = true)
    (isWin32 : Bool) (validator : ScanConfig → List ValidationError)
    (inner : String → Except String ParsedNmapResult) (scanExists : Bool)
    (scanConfig : ScanConfig) (userId scanId : String) (now : Int)
    (st : MgrState) (proc : ProcBehavior) :
    EventsExt p st
      (fullCustomScan isWin32 validator inner scanExists scanConfig userId
        scanId now st proc).mgr :=
  eventsExt_trans
    (eventsExt_createSession p st scanId scanConfig.target
      scanConfig.scanProfile.text userId now (hpstart scanId))
    (eventsExt_executeCustomScanWithStreaming p hplog hperr isWin32 validator
      inner scanExists scanConfig _ scanId proc)

/-- Claim C10: completeScan and failScan set the terminal status but emit
only the done-kind and error-kind event respectively, never a status-kind
event; and in every trace of the standard and custom scan flows, every
status-kind event carries starting or running, so a subscriber to
status-kind events never receives done or error and terminal states are
observable only through the done and error event kinds. -/
theorem c10_terminal_only_done_error_events :
    (∀ (st : MgrState) (sid : String) (r : ParsedNmapResult),
      (ScanSessionManager.completeScan st sid r).events
        = st.events
          ++ (if (st.sessions sid).isSome then [.doneEv sid r] else []))
    ∧ (∀ (st : MgrState) (sid m : String),
      (ScanSessionManager.failScan st sid m).events
        = st.events
          ++ (if (st.sessions sid).isSome then [.errorEv sid m] else []))
    ∧ (∀ (isWin32 : Bool) (validator : ScanConfig → List ValidationError)
        (inner : String → Except String ParsedNmapResult)
        (scanExists : Bool) (target profile userId scanId : String)
        (now : Int) (reg : String → Option ScanSession) (proc : ProcBehavior),
        statusEventsTame (fullStandardScan isWin32 validator inner scanExists
          target profile userId scanId now { sessions := reg, events := [] }
          proc).mgr.events = true)
    ∧ (∀ (isWin32 : Bool) (validator : ScanConfig → List ValidationError)
        (inner : String → Except String ParsedNmapResult)
        (scanExists : Bool) (scanConfig : ScanConfig)
        (userId scanId : String) (now : Int)
        (reg : String → Option ScanSession) (proc : ProcBehavior),
        statusEventsTame (fullCustomScan isWin32 validator inner scanExists
          scanConfig userId scanId now { sessions := reg, events := [] }
          proc).mgr.events = true) := by
  refine ⟨completeScan_events, failScan_events, ?_, ?_⟩
  · intro isWin32 validator inner scanExists target profile userId scanId now
      reg proc
    have hext := eventsExt_fullStandardScan tameEvent
      (fun _ _ => rfl) (fun _ _ => rfl) (fun _ _ => rfl) (fun _ => rfl)
      (fun _ => rfl) isWin32 validator inner scanExists target profile userId
      scanId now { sessions := reg, events := [] } proc
    rw [statusEventsTame, List.all_eq_true]
    intro e hmem
    rcases hext e hmem with h | h
    · simp at h
    · exact h
  · intro isWin32 validator inner scanExists scanConfig userId scanId now
      reg proc
    have hext := eventsExt_fullCustomScan tameEvent
      (fun _ _ => rfl) (fun _ _ => rfl) (fun _ => rfl) isWin32 validator
      inner scanExists scanConfig userId scanId now
      { sessions := reg, events := [] } proc
    rw [statusEventsTame, List.all_eq_true]
    intro e hmem
    rcases hext e hmem with h | h
    · simp at h
    · exact h

end LanVision
